import Mathlib

/-!
Verification of the Odysseus candidate-evaluation and execution pipeline.

The Python modules `src/risk.py`, `src/strategy/basic.py`,
`src/providers/jupiter.py`, `src/providers/rugcheck.py`, `src/executor.py`
and `src/engine.py` are shallowly embedded below.  Network I/O is modelled
by oracle functions supplied as parameters: an HTTP request either raises a
transport-level exception (httpx timeout / connection error) or yields a
status code together with an optional parsed JSON body (`none` when the
body is not JSON, so that `r.json()` raises).  Python exceptions are
modelled by the `Except PyErr` monad; a value `.error e` means the Python
code raises `e` at that point, `.ok v` means it returns `v` normally.
-/

namespace Odysseus

/-! JSON values and Python dictionaries (only the shapes the code touches). -/

/-- A JSON scalar as the embedded code can observe it: an integer or a
string.  Other JSON shapes are not produced by the modelled endpoints. -/
inductive JVal where
  | jint (n : Int)
  | jstr (s : String)
deriving DecidableEq

/-- A Python dict with string keys and JSON scalar values. -/
abbrev Dict := List (String × JVal)

/-- `d.get(k)` : first binding of `k`, if any. -/
def dictLookup (d : Dict) (k : String) : Option JVal :=
  (d.find? (fun p => p.1 = k)).map (fun p => p.2)

/-- `d.get(k, dflt)`. -/
def dictGetD (d : Dict) (k : String) (dflt : JVal) : JVal :=
  (dictLookup d k).getD dflt

/-- `k in d`. -/
def dictHas (d : Dict) (k : String) : Bool :=
  (dictLookup d k).isSome

/-- Python truthiness of a JSON scalar (`0` and `""` are falsy). -/
def jTruthy : JVal → Bool
  | .jint n => n ≠ 0
  | .jstr s => s ≠ ""

/-- The Python exceptions the embedded code can raise. -/
inductive PyErr where
  | httpxError          -- transport error / timeout raised by httpx
  | jsonDecodeError     -- `r.json()` on a malformed body
  | valueError          -- `int()` applied to a non-numeric string
  | httpStatusError     -- `raise_for_status()` on an error status
  | runtimeError (msg : String)
deriving DecidableEq

/-- Python `int(v)` on a JSON scalar: an int is returned as is, a numeric
string is parsed, a non-numeric string raises `ValueError`. -/
def pyInt : JVal → Except PyErr Int
  | .jint n => .ok n
  | .jstr s =>
    match s.toInt? with
    | some n => .ok n
    | none => .error .valueError

/-- Outcome of one HTTP request: the request itself raises (timeout,
connection error), or a response arrives with a status code and an
optional parsed JSON body (`none` when the body is not valid JSON). -/
inductive HttpResult where
  | transportErr
  | resp (status : Nat) (body : Option Dict)
deriving DecidableEq

/-- The environment's answer to a Jupiter `/v6/quote` request, as a
function of `(inputMint, outputMint, amount, slippageBps)`. -/
abbrev QuoteOracle := String → String → Int → Int → HttpResult

/-! Embedding of `src/providers/jupiter.py`. -/

def SOL_MINT : String := "So11111111111111111111111111111111111111112"

/-- `jupiter.quote`: returns the parsed JSON body on status 200 and `None`
on any other status; a transport error or a malformed 200-body raises. -/
def quote (oracle : QuoteOracle) (input_mint output_mint : String)
    (amount slippage_bps : Int) : Except PyErr (Option Dict) :=
  match oracle input_mint output_mint amount slippage_bps with
  | .transportErr => .error .httpxError
  | .resp status body =>
    if status = 200 then
      match body with
      | none => .error .jsonDecodeError
      | some d => .ok (some d)
    else .ok none

/-- `jupiter.simulate_buy_sell`: buy leg SOL→token, then sell leg
token→SOL using the buy leg's full `outAmount` as input; `True` only when
both legs quote a positive `outAmount`. -/
def simulate_buy_sell (oracle : QuoteOracle) (token_mint : String)
    (lamports_in slippage_bps : Int) : Except PyErr Bool :=
  match quote oracle SOL_MINT token_mint lamports_in slippage_bps with
  | .error e => .error e
  | .ok none => .ok false
  | .ok (some q_buy) =>
    -- `if not q_buy or int(q_buy.get("outAmount", 0)) <= 0: return False`
    if q_buy.isEmpty then .ok false
    else
      match pyInt (dictGetD q_buy "outAmount" (.jint 0)) with
      | .error e => .error e
      | .ok n =>
        if n ≤ 0 then .ok false
        else
          -- `token_amount = int(q_buy["outAmount"]) if "outAmount" in q_buy else 0`
          match (if dictHas q_buy "outAmount"
                 then pyInt (dictGetD q_buy "outAmount" (.jint 0))
                 else .ok 0) with
          | .error e => .error e
          | .ok token_amount =>
            if token_amount ≤ 0 then .ok false
            else
              match quote oracle token_mint SOL_MINT token_amount slippage_bps with
              | .error e => .error e
              | .ok none => .ok false
              | .ok (some q_sell) =>
                if q_sell.isEmpty then .ok false
                else
                  match pyInt (dictGetD q_sell "outAmount" (.jint 0)) with
                  | .error e => .error e
                  | .ok m => if m ≤ 0 then .ok false else .ok true

/-! Embedding of `src/risk.py`. -/

/-- `risk.TokenInfo`. -/
structure TokenInfo where
  mint_revoked : Bool
  freeze_revoked : Bool
  top5_pct : ℚ
  liquidity_sol : ℚ
  graduated : Bool
  pool_ok : Bool
deriving DecidableEq

/-- The RugCheck summary dict for one mint, restricted to the two keys the
code reads; a `none` field models an absent key. -/
structure RCDict where
  risk_level : Option String := none
  flags : Option (List String) := none
deriving DecidableEq

/-- Python `str.lower` (character-wise ASCII lowering, which coincides
with Python on the ASCII flag strings this code compares). -/
def pyLower (s : String) : String :=
  String.mk (s.data.map Char.toLower)

/-- `risk.hard_filters_pass`, clause for clause. -/
def hard_filters_pass (info : TokenInfo) (rc_summary : RCDict)
    (max_top5 min_liq : ℚ) : Bool :=
  if !(info.mint_revoked && info.freeze_revoked) then false
  else if max_top5 < info.top5_pct then false
  else if info.liquidity_sol < min_liq then false
  else if ¬ (rc_summary.risk_level.getD "high" = "low"
             ∨ rc_summary.risk_level.getD "high" = "medium") then false
  else if ∃ f ∈ (rc_summary.flags.getD []).map pyLower,
            f ∈ (["honeypot", "blacklist", "trading_disabled"] : List String)
       then false
  else true

/-! Embedding of `src/strategy/basic.py`. -/

namespace Strategy

/-- `basic.Decision`. -/
structure Decision where
  should_test_buy : Bool
  target_usd : ℚ
deriving DecidableEq

/-- `basic.decide`. -/
def decide (test_buy_usd max_position_usd : ℚ) (graduated sell_sim_ok : Bool) :
    Decision :=
  if !graduated then { should_test_buy := true, target_usd := test_buy_usd }
  else if sell_sim_ok then { should_test_buy := true, target_usd := max_position_usd }
  else { should_test_buy := false, target_usd := 0 }

end Strategy

/-! Embedding of `src/config.py` (the settings the pipeline reads). -/

/-- The fields of `config.Settings` that the embedded modules consume,
with the source's default values. -/
structure Settings where
  WALLET_PUBLIC_KEY : String
  WALLET_PRIVATE_KEY : Option String := none
  RUGCHECK_API_KEY : Option String := none
  MIN_LIQ_SOL : ℚ := 5
  MAX_TOP5_PCT : ℚ := 45
  TEST_BUY_USD : ℚ := 3
  MAX_POSITION_USD : ℚ := 10
  SLIPPAGE_BPS : Int := 50

/-! Embedding of `src/executor.py`. -/

def LAMPORTS_PER_SOL : Int := 1000000000

/-- Python `int()` truncation toward zero on an exact rational. -/
def pyTruncInt (q : ℚ) : Int :=
  if 0 ≤ q then ⌊q⌋ else ⌈q⌉

/-- The notional→lamports conversion duplicated at the top of
`simulate_buy_sell_usd` and `execute_trade`:
`int(max(1, usd) * 0.01 * LAMPORTS_PER_SOL)` clamped below by
`int(0.001 * LAMPORTS_PER_SOL)`. -/
def usd_to_lamports (usd_amount : ℚ) : Int :=
  max (pyTruncInt (max 1 usd_amount * (1 / 100) * (LAMPORTS_PER_SOL : ℚ)))
      (pyTruncInt ((1 / 1000) * (LAMPORTS_PER_SOL : ℚ)))

/-- `executor.simulate_buy_sell_usd`. -/
def simulate_buy_sell_usd (oracle : QuoteOracle) (cfg : Settings)
    (token_mint : String) (usd_amount : ℚ) : Except PyErr Bool :=
  simulate_buy_sell oracle token_mint (usd_to_lamports usd_amount) cfg.SLIPPAGE_BPS

/-- `executor._jup_swap_build` applied to the `/v6/swap` response:
`raise_for_status()`, then `r.json()`, then the `swapTransaction` field
(its absence raises `RuntimeError`). -/
def jup_swap_build (res : HttpResult) : Except PyErr JVal :=
  match res with
  | .transportErr => .error .httpxError
  | .resp status body =>
    if 200 ≤ status ∧ status < 300 then
      match body with
      | none => .error .jsonDecodeError
      | some data =>
        match dictLookup data "swapTransaction" with
        | some v => .ok v
        | none => .error (.runtimeError "Jupiter swap error")
    else .error .httpStatusError

/-- `utils.solana.rpc_send_raw_tx` applied to the RPC response:
`raise_for_status()` then `r.json()`. -/
def rpc_send_raw_tx (res : HttpResult) : Except PyErr Dict :=
  match res with
  | .transportErr => .error .httpxError
  | .resp status body =>
    if 200 ≤ status ∧ status < 300 then
      match body with
      | none => .error .jsonDecodeError
      | some d => .ok d
    else .error .httpStatusError

/-- The external-world actions `execute_trade` can attempt, recorded in
the order they are issued. -/
inductive ExecAction where
  | quoteRequest (input_mint output_mint : String) (amount : Int)
  | swapBuildRequest
  | signTx
  | broadcastTx
deriving DecidableEq

/-- `executor.execute_trade` returns `{"signature": sig, "status": "SENT"}`
where `sig = res.get("result") or res`. -/
inductive SigResult where
  | fromField (v : JVal)
  | wholeResp (d : Dict)
deriving DecidableEq

/-- `TradeResult`: the dict returned by `execute_trade` on success. -/
structure TradeResult where
  signature : SigResult
  status : String
deriving DecidableEq

/-- The environment of the executor and the engine: oracles for the quote
endpoint, the `/v6/swap` builder, the local decode/sign step of `solders`
(a library call that can itself raise), and the RPC broadcast endpoint. -/
structure ExecEnv where
  jup : QuoteOracle
  swapRes : String → Dict → HttpResult
  sign : JVal → String → Except PyErr String
  rpc : String → HttpResult

/-- `executor.execute_trade`, with the trace of external actions it
attempted.  The very first statement raises `RuntimeError` when
`WALLET_PRIVATE_KEY` is absent, before any action is issued. -/
def execute_trade (env : ExecEnv) (cfg : Settings) (token_mint : String)
    (usd_amount : ℚ) : Except PyErr TradeResult × List ExecAction :=
  match cfg.WALLET_PRIVATE_KEY with
  | none => (.error (.runtimeError "WALLET_PRIVATE_KEY missing for live execution"), [])
  | some pk =>
    let lamports_in := usd_to_lamports usd_amount
    let acts := [ExecAction.quoteRequest SOL_MINT token_mint lamports_in]
    match quote env.jup SOL_MINT token_mint lamports_in cfg.SLIPPAGE_BPS with
    | .error e => (.error e, acts)
    | .ok none => (.error (.runtimeError "Quote failed or zero outAmount"), acts)
    | .ok (some q) =>
      if q.isEmpty then
        (.error (.runtimeError "Quote failed or zero outAmount"), acts)
      else
        match pyInt (dictGetD q "outAmount" (.jint 0)) with
        | .error e => (.error e, acts)
        | .ok n =>
          if n ≤ 0 then
            (.error (.runtimeError "Quote failed or zero outAmount"), acts)
          else
            let acts := acts ++ [ExecAction.swapBuildRequest]
            match jup_swap_build (env.swapRes cfg.WALLET_PUBLIC_KEY q) with
            | .error e => (.error e, acts)
            | .ok swap_b64 =>
              let acts := acts ++ [ExecAction.signTx]
              match env.sign swap_b64 pk with
              | .error e => (.error e, acts)
              | .ok raw_b64 =>
                let acts := acts ++ [ExecAction.broadcastTx]
                match rpc_send_raw_tx (env.rpc raw_b64) with
                | .error e => (.error e, acts)
                | .ok res =>
                  let sig :=
                    match dictLookup res "result" with
                    | some v => if jTruthy v then SigResult.fromField v
                                else SigResult.wholeResp res
                    | none => SigResult.wholeResp res
                  (.ok { signature := sig, status := "SENT" }, acts)

/-! Embedding of `src/providers/rugcheck.py`. -/

/-- The `/v1/bulk/tokens/summary` HTTP outcome: a transport-level raise,
or a status plus an optional parsed body (a map mint → summary). -/
inductive RCHttpResult where
  | transportErr
  | resp (status : Nat) (body : Option (List (String × RCDict)))
deriving DecidableEq

/-- `rugcheck.bulk_summary`: with no API key it returns the conservative
map without any request; otherwise the request runs, `raise_for_status()`
raises on an error status, and a transport error raises. -/
def bulk_summary (res : RCHttpResult) (cfg : Settings) (mints : List String) :
    Except PyErr (List (String × RCDict)) :=
  match cfg.RUGCHECK_API_KEY with
  | none =>
    .ok (mints.map (fun m => (m, { risk_level := some "high", flags := some ["no_api_key"] })))
  | some _ =>
    match res with
    | .transportErr => .error .httpxError
    | .resp status body =>
      if 200 ≤ status ∧ status < 300 then
        match body with
        | none => .error .jsonDecodeError
        | some data => .ok data
      else .error .httpStatusError

/-! Embedding of `src/engine.py`. -/

/-- `pumpportal.Candidate`. -/
structure Candidate where
  mint : String
  symbol : Option String := none
  name : Option String := none
  created_ts : Option ℚ := none
  graduated : Bool := false
deriving DecidableEq

/-- The log lines `process_candidates` can emit, with their payloads. -/
inductive LogEntry where
  | noCandidates
  | skipFilters (mint : String) (rc : RCDict)
  | skipDecision (mint : String)
  | paperBuy (mint : String) (target_usd : ℚ)
  | liveBuy (mint : String) (tx : TradeResult)
deriving DecidableEq

/-- `rc_bulk.get(c.mint, {"risk_level": "high"})`. -/
def rcGet (rc_bulk : List (String × RCDict)) (mint : String) : RCDict :=
  ((rc_bulk.find? (fun p => p.1 = mint)).map (fun p => p.2)).getD
    { risk_level := some "high" }

/-- The hardcoded `TokenInfo` literal built inside the per-candidate loop
of `process_candidates` (marked `TODO: replace with real chain/indexer
checks` in the source). -/
def stub_token_info : TokenInfo :=
  { mint_revoked := true
    freeze_revoked := true
    top5_pct := mkRat 321 10      -- 32.1
    liquidity_sol := mkRat 42 5   -- 8.4
    graduated := true
    pool_ok := true }

/-- One iteration of the `for c in candidates` loop: it produces exactly
one log line, or raises (from the simulator or the live executor) having
logged nothing for this candidate. -/
def candidate_step (env : ExecEnv) (cfg : Settings)
    (rc_bulk : List (String × RCDict)) (paper : Bool) (c : Candidate) :
    Except PyErr LogEntry :=
  let rc := rcGet rc_bulk c.mint
  if ¬ hard_filters_pass stub_token_info rc cfg.MAX_TOP5_PCT cfg.MIN_LIQ_SOL then
    .ok (.skipFilters c.mint rc)
  else
    match simulate_buy_sell_usd env.jup cfg c.mint cfg.TEST_BUY_USD with
    | .error e => .error e
    | .ok sell_sim_ok =>
      let decision := Strategy.decide cfg.TEST_BUY_USD cfg.MAX_POSITION_USD
        stub_token_info.graduated sell_sim_ok
      if ¬ decision.should_test_buy then .ok (.skipDecision c.mint)
      else if paper then .ok (.paperBuy c.mint decision.target_usd)
      else
        match execute_trade env cfg c.mint decision.target_usd with
        | (.error e, _) => .error e
        | (.ok tx, _) => .ok (.liveBuy c.mint tx)

/-- The candidate loop: log lines accumulate until a candidate's step
raises, at which point the exception propagates and the remaining
candidates are never reached. -/
def run_candidates (env : ExecEnv) (cfg : Settings)
    (rc_bulk : List (String × RCDict)) (paper : Bool) :
    List Candidate → List LogEntry × Option PyErr
  | [] => ([], none)
  | c :: rest =>
    match candidate_step env cfg rc_bulk paper c with
    | .error e => ([], some e)
    | .ok entry =>
      let r := run_candidates env cfg rc_bulk paper rest
      (entry :: r.1, r.2)

/-- `engine.process_candidates`: the emitted log lines, paired with the
exception that aborted the cycle, if any. -/
def process_candidates (env : ExecEnv) (rcRes : RCHttpResult) (cfg : Settings)
    (candidates : List Candidate) (paper : Bool) :
    List LogEntry × Option PyErr :=
  if candidates.isEmpty then ([LogEntry.noCandidates], none)
  else
    match bulk_summary rcRes cfg (candidates.map (fun c => c.mint)) with
    | .error e => ([], some e)
    | .ok rc_bulk => run_candidates env cfg rc_bulk paper candidates

/-- The log line a candidate produces when its step does not raise. -/
def okLog (env : ExecEnv) (cfg : Settings) (rc_bulk : List (String × RCDict))
    (paper : Bool) (c : Candidate) : LogEntry :=
  ((candidate_step env cfg rc_bulk paper c).toOption).getD .noCandidates

/-! Concrete test fixtures used by witnesses. -/

/-- An environment in which every external call fails at the transport
level. -/
def envDown : ExecEnv :=
  { jup := fun _ _ _ _ => .transportErr
    swapRes := fun _ _ => .transportErr
    sign := fun _ _ => .error .valueError
    rpc := fun _ => .transportErr }

/-- A settings value with no credentials and the source defaults. -/
def cfgNoKeys : Settings :=
  { WALLET_PUBLIC_KEY := "PubKey1" }

/-! Theorems for the claims. -/

/-- Claim C1: for every environment, settings, mint and notional, if no
wallet private key is configured then `execute_trade` raises a
`RuntimeError` and its action trace is empty — no quote request, swap
build, signing or broadcast is attempted. -/
theorem C1_execute_trade_requires_key (env : ExecEnv) (cfg : Settings)
    (mint : String) (usd : ℚ) (h : cfg.WALLET_PRIVATE_KEY = none) :
    execute_trade env cfg mint usd
      = (.error (.runtimeError "WALLET_PRIVATE_KEY missing for live execution"), []) := by
  simp only [execute_trade, h]

/-- Witness for C1 at a concrete environment, settings, mint and
notional. -/
theorem C1_execute_trade_requires_key_witness :
    execute_trade envDown cfgNoKeys "MintA" 10
      = (.error (.runtimeError "WALLET_PRIVATE_KEY missing for live execution"), []) :=
  C1_execute_trade_requires_key envDown cfgNoKeys "MintA" 10 rfl

/-- Claim C2: `decide` is a pure total function with exactly the spec's
case analysis: not graduated → trade at the test-buy size whatever the
simulation said; graduated and simulation ok → trade at the max position
size; graduated and simulation failed → no trade, target 0. -/
theorem C2_decide_case_analysis (t m : ℚ) (g s : Bool) :
    Strategy.decide t m g s =
      if g = false then { should_test_buy := true, target_usd := t }
      else if s = true then { should_test_buy := true, target_usd := m }
      else { should_test_buy := false, target_usd := 0 } := by
  cases g <;> cases s <;> rfl

/-- Claim C3: whenever either authority-revoked flag is false, the risk
filter returns false, regardless of every other field and threshold. -/
theorem C3_authority_revocation (info : TokenInfo) (rc : RCDict)
    (maxT minL : ℚ)
    (h : info.mint_revoked = false ∨ info.freeze_revoked = false) :
    hard_filters_pass info rc maxT minL = false := by
  rcases h with h | h <;> simp [hard_filters_pass, h]

/-- Witness for C3: a token with excellent holder and liquidity numbers
but an unrevoked mint authority is rejected. -/
theorem C3_authority_revocation_witness :
    hard_filters_pass
      { mint_revoked := false, freeze_revoked := true, top5_pct := 1,
        liquidity_sol := 1000, graduated := true, pool_ok := true }
      { risk_level := some "low", flags := some [] } 45 5 = false :=
  C3_authority_revocation _ _ _ _ (Or.inl rfl)

/-- Any summary whose (possibly defaulted) classification is neither
`low` nor `medium` is rejected, whatever the other fields say. -/
theorem hard_filters_pass_risk_reject (info : TokenInfo) (rc : RCDict)
    (maxT minL : ℚ)
    (h : ¬ (rc.risk_level.getD "high" = "low"
            ∨ rc.risk_level.getD "high" = "medium")) :
    hard_filters_pass info rc maxT minL = false := by
  unfold hard_filters_pass
  rw [if_pos h]
  simp only [ite_self]

/-- Claim C6: the risk filter rejects every summary whose classification
is not `low` and not `medium` (so `high`, unknown strings, and a missing
key all fail, flags notwithstanding), and accepts a summary with
classification `low` and empty flags when both authorities are revoked,
the top-5 concentration is within the threshold and liquidity meets the
minimum. -/
theorem C6_risk_classification :
    (∀ (info : TokenInfo) (rc : RCDict) (maxT minL : ℚ),
      rc.risk_level ≠ some "low" → rc.risk_level ≠ some "medium" →
      hard_filters_pass info rc maxT minL = false)
  ∧ (∀ (info : TokenInfo) (maxT minL : ℚ),
      info.mint_revoked = true → info.freeze_revoked = true →
      info.top5_pct ≤ maxT → minL ≤ info.liquidity_sol →
      hard_filters_pass info { risk_level := some "low", flags := some [] }
        maxT minL = true) := by
  constructor
  · intro info rc maxT minL h1 h2
    refine hard_filters_pass_risk_reject info rc maxT minL ?_
    cases hrl : rc.risk_level with
    | none => simp
    | some s =>
      rw [hrl] at h1 h2
      simp only [Option.getD_some]
      rintro (h | h)
      · exact h1 (by rw [h])
      · exact h2 (by rw [h])
  · intro info maxT minL hm hf ht hl
    simp [hard_filters_pass, hm, hf, not_lt.mpr ht, not_lt.mpr hl]

/-- Witness for C6: the rejecting conjunct at classification `high` with
empty flags, and the accepting conjunct at classification `low`, both on
the hardcoded token attributes and the default thresholds. -/
theorem C6_risk_classification_witness :
    hard_filters_pass stub_token_info
      { risk_level := some "high", flags := some [] } 45 5 = false
  ∧ hard_filters_pass stub_token_info
      { risk_level := some "low", flags := some [] } 45 5 = true :=
  ⟨C6_risk_classification.1 stub_token_info
      { risk_level := some "high", flags := some [] } 45 5
      (by decide) (by decide),
   C6_risk_classification.2 stub_token_info 45 5 rfl rfl
      (by norm_num [stub_token_info]) (by norm_num [stub_token_info])⟩

/-- Claim C9 counterexample: the claim's disqualifying set is written
with the hyphenated string `trading-disabled`, but the source's literal
set is `{"honeypot", "blacklist", "trading_disabled"}` — so a summary
whose only flag is `trading-disabled` (already lower-case, and a member
of the claim's set) is ACCEPTED by `hard_filters_pass` even though the
claim says every such summary is rejected. -/
theorem C9_flags_counterexample :
    (pyLower "trading-disabled"
        ∈ (["honeypot", "blacklist", "trading-disabled"] : List String))
    ∧ hard_filters_pass
        { mint_revoked := true, freeze_revoked := true, top5_pct := 1,
          liquidity_sol := 1000, graduated := true, pool_ok := true }
        { risk_level := some "low", flags := some ["trading-disabled"] }
        45 5 = true := by
  constructor
  · decide
  · rfl

/-- Claim C9 amended: given that all other rules pass (both authorities
revoked, concentration and liquidity within thresholds, classification
`low` or `medium`), the filter rejects the summary iff some flag's
lower-cased form is in the source's literal disqualifying set
`{"honeypot", "blacklist", "trading_disabled"}` (underscore, not
hyphen). -/
theorem C9_flags_amended (info : TokenInfo) (rc : RCDict) (maxT minL : ℚ)
    (hm : info.mint_revoked = true) (hf : info.freeze_revoked = true)
    (ht : info.top5_pct ≤ maxT) (hl : minL ≤ info.liquidity_sol)
    (hr : rc.risk_level = some "low" ∨ rc.risk_level = some "medium") :
    hard_filters_pass info rc maxT minL = false
      ↔ ∃ f ∈ rc.flags.getD [],
          pyLower f ∈ (["honeypot", "blacklist", "trading_disabled"] : List String) := by
  have h4 : rc.risk_level.getD "high" = "low"
            ∨ rc.risk_level.getD "high" = "medium" := by
    rcases hr with h | h <;> simp [h]
  rw [hard_filters_pass, if_neg (by simp [hm, hf]), if_neg (not_lt.mpr ht),
    if_neg (not_lt.mpr hl), if_neg (not_not_intro h4)]
  by_cases hx : ∃ f ∈ (rc.flags.getD []).map pyLower,
      f ∈ (["honeypot", "blacklist", "trading_disabled"] : List String)
  · rw [if_pos hx]
    obtain ⟨f, hfm, hfb⟩ := hx
    rw [List.mem_map] at hfm
    obtain ⟨g, hg, rfl⟩ := hfm
    simp only [eq_self_iff_true, true_iff]
    exact ⟨g, hg, hfb⟩
  · rw [if_neg hx]
    constructor
    · intro habs
      exact absurd habs (by simp)
    · rintro ⟨g, hg, hb⟩
      exact absurd ⟨pyLower g, List.mem_map_of_mem pyLower hg, hb⟩ hx

/-- Witness for the amended C9: a summary with classification `low` and
single flag `HONEYPOT` on the hardcoded token attributes; the filter
rejects it because `"HONEYPOT".toLower` is in the source's set. -/
theorem C9_flags_amended_witness :
    hard_filters_pass stub_token_info
      { risk_level := some "low", flags := some ["HONEYPOT"] } 45 5 = false
      ↔ ∃ f ∈ (some ["HONEYPOT"] : Option (List String)).getD [],
          pyLower f ∈ (["honeypot", "blacklist", "trading_disabled"] : List String) :=
  C9_flags_amended stub_token_info
    { risk_level := some "low", flags := some ["HONEYPOT"] } 45 5
    rfl rfl (by norm_num [stub_token_info]) (by norm_num [stub_token_info])
    (Or.inl rfl)

/-! Helper lemmas about `quote`, dictionaries and `simulate_buy_sell`. -/

theorem quote_of_transportErr (o : QuoteOracle) (i u : String) (a s : Int)
    (h : o i u a s = .transportErr) : quote o i u a s = .error .httpxError := by
  simp [quote, h]

theorem quote_of_non200 (o : QuoteOracle) (i u : String) (a s : Int)
    (st : Nat) (b : Option Dict) (h : o i u a s = .resp st b) (hst : st ≠ 200) :
    quote o i u a s = .ok none := by
  simp [quote, h, hst]

theorem quote_of_200_some (o : QuoteOracle) (i u : String) (a s : Int)
    (d : Dict) (h : o i u a s = .resp 200 (some d)) :
    quote o i u a s = .ok (some d) := by
  simp [quote, h]

theorem quote_of_200_none (o : QuoteOracle) (i u : String) (a s : Int)
    (h : o i u a s = .resp 200 none) :
    quote o i u a s = .error .jsonDecodeError := by
  simp [quote, h]

theorem dictGetD_of_empty (d : Dict) (k : String) (v : JVal)
    (h : d.isEmpty = true) : dictGetD d k v = v := by
  cases d with
  | nil => rfl
  | cons x xs => simp at h

theorem dictGetD_of_not_has (d : Dict) (k : String) (v : JVal)
    (h : dictHas d k = false) : dictGetD d k v = v := by
  unfold dictGetD
  unfold dictHas at h
  cases hl : dictLookup d k with
  | none => rfl
  | some w => rw [hl] at h; simp at h

theorem isEmpty_false_of_lookup (d : Dict) (k : String) (v : JVal)
    (h : dictLookup d k = some v) : d.isEmpty = false := by
  cases d with
  | nil => simp [dictLookup] at h
  | cons x xs => rfl

/-- If the forward quote produced a dict whose `outAmount` converts to a
positive integer, the simulation continues into the sell leg with exactly
that amount. -/
theorem simulate_buy_sell_sell_leg (oracle : QuoteOracle) (mint : String)
    (lamports slip : Int) (d : Dict) (n : Int)
    (hq : quote oracle SOL_MINT mint lamports slip = .ok (some d))
    (hn : pyInt (dictGetD d "outAmount" (.jint 0)) = .ok n) (hpos : 0 < n) :
    simulate_buy_sell oracle mint lamports slip =
      (match quote oracle mint SOL_MINT n slip with
       | .error e => .error e
       | .ok none => .ok false
       | .ok (some q_sell) =>
         if q_sell.isEmpty then .ok false
         else
           match pyInt (dictGetD q_sell "outAmount" (.jint 0)) with
           | .error e => .error e
           | .ok m => if m ≤ 0 then .ok false else .ok true) := by
  have hne : d.isEmpty = false := by
    cases hd : d.isEmpty
    · rfl
    · exfalso
      rw [dictGetD_of_empty d "outAmount" (.jint 0) hd] at hn
      simp only [pyInt] at hn
      cases hn
      exact absurd hpos (by simp)
  have hhas : dictHas d "outAmount" = true := by
    cases hh : dictHas d "outAmount"
    · exfalso
      rw [dictGetD_of_not_has d "outAmount" (.jint 0) hh] at hn
      simp only [pyInt] at hn
      cases hn
      exact absurd hpos (by simp)
    · rfl
  simp only [simulate_buy_sell, hq, hne, hhas, hn, Bool.false_eq_true, if_false,
    if_true, if_neg (not_le.mpr hpos)]

/-- Claim C5: `simulate_buy_sell` returns `True` iff the forward quote is
present with strictly positive `outAmount` and the reverse quote,
requested with exactly that amount, is present with strictly positive
`outAmount`; a missing quote or a non-positive (or absent) `outAmount` on
either leg gives `False`. -/
theorem C5_simulate_round_trip (oracle : QuoteOracle) (mint : String)
    (lamports slip : Int) :
    (simulate_buy_sell oracle mint lamports slip = .ok true ↔
      ∃ (q_buy : Dict) (n : Int) (q_sell : Dict) (m : Int),
        quote oracle SOL_MINT mint lamports slip = .ok (some q_buy) ∧
        pyInt (dictGetD q_buy "outAmount" (.jint 0)) = .ok n ∧ 0 < n ∧
        quote oracle mint SOL_MINT n slip = .ok (some q_sell) ∧
        pyInt (dictGetD q_sell "outAmount" (.jint 0)) = .ok m ∧ 0 < m)
  ∧ (quote oracle SOL_MINT mint lamports slip = .ok none →
      simulate_buy_sell oracle mint lamports slip = .ok false)
  ∧ (∀ (d : Dict) (n : Int),
      quote oracle SOL_MINT mint lamports slip = .ok (some d) →
      pyInt (dictGetD d "outAmount" (.jint 0)) = .ok n → n ≤ 0 →
      simulate_buy_sell oracle mint lamports slip = .ok false)
  ∧ (∀ (d : Dict) (n : Int),
      quote oracle SOL_MINT mint lamports slip = .ok (some d) →
      pyInt (dictGetD d "outAmount" (.jint 0)) = .ok n → 0 < n →
      quote oracle mint SOL_MINT n slip = .ok none →
      simulate_buy_sell oracle mint lamports slip = .ok false)
  ∧ (∀ (d : Dict) (n : Int) (d2 : Dict) (m : Int),
      quote oracle SOL_MINT mint lamports slip = .ok (some d) →
      pyInt (dictGetD d "outAmount" (.jint 0)) = .ok n → 0 < n →
      quote oracle mint SOL_MINT n slip = .ok (some d2) →
      pyInt (dictGetD d2 "outAmount" (.jint 0)) = .ok m → m ≤ 0 →
      simulate_buy_sell oracle mint lamports slip = .ok false) := by
  refine ⟨⟨?_, ?_⟩, ?_, ?_, ?_, ?_⟩
  · -- `.ok true` forces the full positive chain
    intro h
    cases hq : quote oracle SOL_MINT mint lamports slip with
    | error e => simp [simulate_buy_sell, hq] at h
    | ok oq =>
      cases oq with
      | none => simp [simulate_buy_sell, hq] at h
      | some d =>
        cases hd : d.isEmpty with
        | true => simp [simulate_buy_sell, hq, hd] at h
        | false =>
          cases hn : pyInt (dictGetD d "outAmount" (.jint 0)) with
          | error e => simp [simulate_buy_sell, hq, hd, hn] at h
          | ok n =>
            by_cases hpos : n ≤ 0
            · simp [simulate_buy_sell, hq, hd, hn, hpos] at h
            · have hpos' : 0 < n := lt_of_not_le hpos
              rw [simulate_buy_sell_sell_leg oracle mint lamports slip d n hq hn hpos'] at h
              cases hs : quote oracle mint SOL_MINT n slip with
              | error e => rw [hs] at h; simp at h
              | ok os =>
                cases os with
                | none => rw [hs] at h; simp at h
                | some d2 =>
                  rw [hs] at h
                  cases hd2 : d2.isEmpty with
                  | true => simp [hd2] at h
                  | false =>
                    cases hm : pyInt (dictGetD d2 "outAmount" (.jint 0)) with
                    | error e => simp [hd2, hm] at h
                    | ok m =>
                      by_cases hmpos : m ≤ 0
                      · simp [hd2, hm, hmpos] at h
                      · exact ⟨d, n, d2, m, rfl, hn, lt_of_not_le hpos, hs, hm,
                          lt_of_not_le hmpos⟩
  · -- the positive chain forces `.ok true`
    rintro ⟨d, n, d2, m, hq, hn, hpos, hs, hm, hmpos⟩
    have hd2 : d2.isEmpty = false := by
      cases hd2 : d2.isEmpty
      · rfl
      · exfalso
        rw [dictGetD_of_empty d2 "outAmount" (.jint 0) hd2] at hm
        simp only [pyInt] at hm
        cases hm
        exact absurd hmpos (by simp)
    rw [simulate_buy_sell_sell_leg oracle mint lamports slip d n hq hn hpos, hs]
    simp only [hd2, Bool.false_eq_true, if_false, hm, if_neg (not_le.mpr hmpos)]
  · intro h
    simp only [simulate_buy_sell, h]
  · intro d n hq hn hle
    cases hd : d.isEmpty with
    | true => simp only [simulate_buy_sell, hq, hd, if_true]
    | false =>
      simp only [simulate_buy_sell, hq, hd, Bool.false_eq_true, if_false, hn,
        if_pos hle]
  · intro d n hq hn hpos hs
    rw [simulate_buy_sell_sell_leg oracle mint lamports slip d n hq hn hpos, hs]
  · intro d n d2 m hq hn hpos hs hm hle
    rw [simulate_buy_sell_sell_leg oracle mint lamports slip d n hq hn hpos, hs]
    cases hd2 : d2.isEmpty with
    | true => simp only [hd2, if_true]
    | false =>
      simp only [hd2, Bool.false_eq_true, if_false, hm, if_pos hle]

/-- Witness for C5: a concrete oracle quoting 500 tokens for the buy leg
and 900 lamports for the sell leg; the simulation succeeds, as the
positive chain requires. -/
theorem C5_simulate_round_trip_witness :
    simulate_buy_sell
      (fun i _ _ _ =>
        if i = SOL_MINT then .resp 200 (some [("outAmount", .jint 500)])
        else .resp 200 (some [("outAmount", .jint 900)]))
      "MintB" 30000000 50 = .ok true ↔
      ∃ (q_buy : Dict) (n : Int) (q_sell : Dict) (m : Int),
        quote
          (fun i _ _ _ =>
            if i = SOL_MINT then .resp 200 (some [("outAmount", .jint 500)])
            else .resp 200 (some [("outAmount", .jint 900)]))
          SOL_MINT "MintB" 30000000 50 = .ok (some q_buy) ∧
        pyInt (dictGetD q_buy "outAmount" (.jint 0)) = .ok n ∧ 0 < n ∧
        quote
          (fun i _ _ _ =>
            if i = SOL_MINT then .resp 200 (some [("outAmount", .jint 500)])
            else .resp 200 (some [("outAmount", .jint 900)]))
          "MintB" SOL_MINT n 50 = .ok (some q_sell) ∧
        pyInt (dictGetD q_sell "outAmount" (.jint 0)) = .ok m ∧ 0 < m :=
  (C5_simulate_round_trip
    (fun i _ _ _ =>
      if i = SOL_MINT then .resp 200 (some [("outAmount", .jint 500)])
      else .resp 200 (some [("outAmount", .jint 900)]))
    "MintB" 30000000 50).1

/-- Claim C4 counterexample: when a leg's quote call suffers a transport
error or timeout, `simulate_buy_sell` (and `simulate_buy_sell_usd`) does
NOT return false — the `httpx` exception propagates uncaught, so it can
abort the batch.  The claim's "never raises" is false on the code. -/
theorem C4_counterexample :
    simulate_buy_sell (fun _ _ _ _ => .transportErr) "MintA" 30000000 50
        = .error .httpxError
  ∧ simulate_buy_sell_usd (fun _ _ _ _ => .transportErr) cfgNoKeys "MintA" 3
        = .error .httpxError
  ∧ simulate_buy_sell (fun _ _ _ _ => .transportErr) "MintA" 30000000 50
        ≠ .ok false := by
  refine ⟨rfl, rfl, ?_⟩
  intro h
  simp [simulate_buy_sell, quote] at h

/-- Claim C4 amended: a leg answering with an HTTP error status, or a
well-formed response whose `outAmount` is missing, zero or negative,
makes the simulation return false without raising; but a transport error
or timeout on either leg, a malformed (non-JSON) 200-body, or a
non-numeric `outAmount` string raises an exception that propagates to the
caller (there is no handler in `simulate_buy_sell`, `simulate_buy_sell_usd`
or the engine loop). -/
theorem C4_failure_modes_amended (oracle : QuoteOracle) (mint : String)
    (lamports slip : Int) :
    (oracle SOL_MINT mint lamports slip = .transportErr →
      simulate_buy_sell oracle mint lamports slip = .error .httpxError)
  ∧ (∀ (st : Nat) (b : Option Dict),
      oracle SOL_MINT mint lamports slip = .resp st b → st ≠ 200 →
      simulate_buy_sell oracle mint lamports slip = .ok false)
  ∧ (oracle SOL_MINT mint lamports slip = .resp 200 none →
      simulate_buy_sell oracle mint lamports slip = .error .jsonDecodeError)
  ∧ (∀ (d : Dict) (s : String),
      oracle SOL_MINT mint lamports slip = .resp 200 (some d) →
      dictLookup d "outAmount" = some (.jstr s) → s.toInt? = none →
      simulate_buy_sell oracle mint lamports slip = .error .valueError)
  ∧ (∀ (d : Dict) (n : Int),
      oracle SOL_MINT mint lamports slip = .resp 200 (some d) →
      pyInt (dictGetD d "outAmount" (.jint 0)) = .ok n → 0 < n →
      oracle mint SOL_MINT n slip = .transportErr →
      simulate_buy_sell oracle mint lamports slip = .error .httpxError)
  ∧ (∀ (cfg : Settings) (usd : ℚ),
      simulate_buy_sell_usd oracle cfg mint usd
        = simulate_buy_sell oracle mint (usd_to_lamports usd) cfg.SLIPPAGE_BPS) := by
  refine ⟨?_, ?_, ?_, ?_, ?_, ?_⟩
  · intro h
    simp [simulate_buy_sell, quote, h]
  · intro st b h hst
    simp [simulate_buy_sell, quote, h, hst]
  · intro h
    simp [simulate_buy_sell, quote, h]
  · intro d s hq hlook hbad
    have hget : dictGetD d "outAmount" (.jint 0) = .jstr s := by
      simp [dictGetD, hlook]
    have hne := isEmpty_false_of_lookup d "outAmount" (.jstr s) hlook
    simp [simulate_buy_sell, quote_of_200_some oracle SOL_MINT mint lamports slip d hq,
      hne, hget, pyInt, hbad]
  · intro d n hq hn hpos hrev
    rw [simulate_buy_sell_sell_leg oracle mint lamports slip d n
      (quote_of_200_some oracle SOL_MINT mint lamports slip d hq) hn hpos,
      quote_of_transportErr oracle mint SOL_MINT n slip hrev]
  · intro cfg usd
    rfl

/-- Witness for the amended C4: a concrete oracle whose buy leg answers
status 429 with no body; the simulation returns false without raising. -/
theorem C4_failure_modes_amended_witness :
    simulate_buy_sell (fun _ _ _ _ => .resp 429 none) "MintC" 1000 50
      = .ok false :=
  (C4_failure_modes_amended (fun _ _ _ _ => .resp 429 none) "MintC" 1000 50).2.1
    429 none rfl (by decide)

/-- A settings value with a RugCheck credential configured. -/
def cfgWithKey : Settings :=
  { WALLET_PUBLIC_KEY := "PubKey1", RUGCHECK_API_KEY := some "key1" }

/-- Claim C7 counterexample: with a credential configured and the risk
service unreachable (transport error), `bulk_summary` RAISES instead of
substituting conservative summaries, and `process_candidates` aborts the
whole batch with that exception, logging nothing. -/
theorem C7_counterexample :
    bulk_summary .transportErr cfgWithKey ["M1"] = .error .httpxError
  ∧ process_candidates envDown .transportErr cfgWithKey
      [{ mint := "M1" }] true = ([], some .httpxError) := by
  constructor <;> rfl

/-- Claim C7 amended: when NO risk-service credential is configured,
`bulk_summary` substitutes — without raising — the maximally conservative
summary (classification `high`, flag `no_api_key`) for every mint in the
batch; any mint absent from a bulk response is defaulted to
classification `high` by the engine's lookup; any summary with
classification `high` fails the risk filter.  But when a credential IS
configured and the service is unreachable, `bulk_summary` raises. -/
theorem C7_conservative_default_amended :
    (∀ (res : RCHttpResult) (cfg : Settings) (mints : List String),
      cfg.RUGCHECK_API_KEY = none →
      bulk_summary res cfg mints
        = .ok (mints.map (fun m =>
            (m, { risk_level := some "high", flags := some ["no_api_key"] }))))
  ∧ (∀ (rc_bulk : List (String × RCDict)) (mint : String),
      rc_bulk.find? (fun p => p.1 = mint) = none →
      rcGet rc_bulk mint = { risk_level := some "high" })
  ∧ (∀ (info : TokenInfo) (fl : Option (List String)) (maxT minL : ℚ),
      hard_filters_pass info { risk_level := some "high", flags := fl }
        maxT minL = false)
  ∧ (∀ (cfg : Settings) (mints : List String) (k : String),
      cfg.RUGCHECK_API_KEY = some k →
      bulk_summary .transportErr cfg mints = .error .httpxError) := by
  refine ⟨?_, ?_, ?_, ?_⟩
  · intro res cfg mints h
    simp [bulk_summary, h]
  · intro rc_bulk mint h
    simp [rcGet, h]
  · intro info fl maxT minL
    exact hard_filters_pass_risk_reject info
      { risk_level := some "high", flags := fl } maxT minL (by simp)
  · intro cfg mints k h
    simp [bulk_summary, h]

/-- Witness for the amended C7: two mints, no credential — the bulk
summary is the conservative map and the engine lookup of an absent mint
defaults to `high`. -/
theorem C7_conservative_default_amended_witness :
    bulk_summary .transportErr cfgNoKeys ["M1", "M2"]
      = .ok [("M1", { risk_level := some "high", flags := some ["no_api_key"] }),
             ("M2", { risk_level := some "high", flags := some ["no_api_key"] })]
  ∧ rcGet [] "M3" = { risk_level := some "high" } :=
  ⟨(C7_conservative_default_amended.1 .transportErr cfgNoKeys ["M1", "M2"] rfl),
   (C7_conservative_default_amended.2.1 [] "M3" rfl)⟩

/-! The candidate loop when no step raises. -/

/-- Whether an `Except` computation finished without raising. -/
def exceptOk {ε α : Type} : Except ε α → Bool
  | .ok _ => true
  | .error _ => false

/-- If every candidate's step succeeds, the loop visits all candidates in
order and emits exactly one log line per candidate. -/
theorem run_candidates_all_ok (env : ExecEnv) (cfg : Settings)
    (rc_bulk : List (String × RCDict)) (paper : Bool) (l : List Candidate)
    (h : ∀ c ∈ l, exceptOk (candidate_step env cfg rc_bulk paper c) = true) :
    run_candidates env cfg rc_bulk paper l
      = (l.map (okLog env cfg rc_bulk paper), none) := by
  induction l with
  | nil => rfl
  | cons c rest ih =>
    have hc := h c (List.mem_cons_self c rest)
    cases hstep : candidate_step env cfg rc_bulk paper c with
    | error e => rw [hstep] at hc; simp [exceptOk] at hc
    | ok entry =>
      have hrest := ih (fun x hx => h x (List.mem_cons_of_mem c hx))
      simp [run_candidates, hstep, hrest, okLog, Except.toOption]

/-- Claim C8 counterexample: a batch of two candidates, both passing the
risk filter, where the first candidate's liquidity simulation suffers a
transport error: the exception aborts the batch — no log line is emitted
for either candidate and the second candidate is never attempted. -/
theorem C8_counterexample :
    process_candidates envDown
      (.resp 200 (some [("A", { risk_level := some "low", flags := some [] }),
                        ("B", { risk_level := some "low", flags := some [] })]))
      cfgWithKey [{ mint := "A" }, { mint := "B" }] true
      = ([], some .httpxError) := by
  rfl

/-- Claim C8 amended: provided the bulk risk fetch and every candidate's
step complete without raising, `process_candidates` attempts all N
candidates in order, emitting exactly one log line per candidate, and a
candidate rejected by the risk filter (resp. by the sizing decision after
a failed simulation) is logged with that stage; but an exception raised
at any stage aborts the remainder of the batch. -/
theorem C8_amended (env : ExecEnv) (rcRes : RCHttpResult) (cfg : Settings)
    (cands : List Candidate) (paper : Bool) (rc_bulk : List (String × RCDict))
    (hne : cands ≠ [])
    (hb : bulk_summary rcRes cfg (cands.map (fun c => c.mint)) = .ok rc_bulk)
    (hok : ∀ c ∈ cands, exceptOk (candidate_step env cfg rc_bulk paper c) = true) :
    process_candidates env rcRes cfg cands paper
      = (cands.map (okLog env cfg rc_bulk paper), none)
  ∧ (∀ c ∈ cands,
      hard_filters_pass stub_token_info (rcGet rc_bulk c.mint)
        cfg.MAX_TOP5_PCT cfg.MIN_LIQ_SOL = false →
      okLog env cfg rc_bulk paper c = .skipFilters c.mint (rcGet rc_bulk c.mint))
  ∧ (∀ c ∈ cands,
      hard_filters_pass stub_token_info (rcGet rc_bulk c.mint)
        cfg.MAX_TOP5_PCT cfg.MIN_LIQ_SOL = true →
      simulate_buy_sell_usd env.jup cfg c.mint cfg.TEST_BUY_USD = .ok false →
      okLog env cfg rc_bulk paper c = .skipDecision c.mint) := by
  refine ⟨?_, ?_, ?_⟩
  · have hempty : cands.isEmpty = false := by
      cases cands with
      | nil => exact absurd rfl hne
      | cons x xs => rfl
    rw [process_candidates, hempty]
    simp only [Bool.false_eq_true, if_false, hb]
    exact run_candidates_all_ok env cfg rc_bulk paper cands hok
  · intro c _ hfilters
    simp [okLog, candidate_step, hfilters, Except.toOption]
  · intro c _ hfilters hsim
    have hg : stub_token_info.graduated = true := rfl
    simp [okLog, candidate_step, hfilters, hsim, hg, Strategy.decide,
      Except.toOption]

/-- Witness for the amended C8: two candidates with no risk credential —
the conservative summaries make both fail the risk filter, both are
attempted, and each is logged with the filter stage. -/
theorem C8_amended_witness :
    process_candidates envDown .transportErr cfgNoKeys
      [{ mint := "A" }, { mint := "B" }] true
      = (([{ mint := "A" }, { mint := "B" }] : List Candidate).map
          (okLog envDown cfgNoKeys
            [("A", { risk_level := some "high", flags := some ["no_api_key"] }),
             ("B", { risk_level := some "high", flags := some ["no_api_key"] })] true),
         none)
  ∧ (∀ c ∈ ([{ mint := "A" }, { mint := "B" }] : List Candidate),
      hard_filters_pass stub_token_info
        (rcGet [("A", { risk_level := some "high", flags := some ["no_api_key"] }),
                ("B", { risk_level := some "high", flags := some ["no_api_key"] })] c.mint)
        cfgNoKeys.MAX_TOP5_PCT cfgNoKeys.MIN_LIQ_SOL = false →
      okLog envDown cfgNoKeys
        [("A", { risk_level := some "high", flags := some ["no_api_key"] }),
         ("B", { risk_level := some "high", flags := some ["no_api_key"] })] true c
        = .skipFilters c.mint
            (rcGet [("A", { risk_level := some "high", flags := some ["no_api_key"] }),
                    ("B", { risk_level := some "high", flags := some ["no_api_key"] })] c.mint))
  ∧ (∀ c ∈ ([{ mint := "A" }, { mint := "B" }] : List Candidate),
      hard_filters_pass stub_token_info
        (rcGet [("A", { risk_level := some "high", flags := some ["no_api_key"] }),
                ("B", { risk_level := some "high", flags := some ["no_api_key"] })] c.mint)
        cfgNoKeys.MAX_TOP5_PCT cfgNoKeys.MIN_LIQ_SOL = true →
      simulate_buy_sell_usd envDown.jup cfgNoKeys c.mint cfgNoKeys.TEST_BUY_USD
        = .ok false →
      okLog envDown cfgNoKeys
        [("A", { risk_level := some "high", flags := some ["no_api_key"] }),
         ("B", { risk_level := some "high", flags := some ["no_api_key"] })] true c
        = .skipDecision c.mint) :=
  C8_amended envDown .transportErr cfgNoKeys
    [{ mint := "A" }, { mint := "B" }] true
    [("A", { risk_level := some "high", flags := some ["no_api_key"] }),
     ("B", { risk_level := some "high", flags := some ["no_api_key"] })]
    (by decide) rfl (by decide)

/-- Claim C10: the engine evaluates every candidate against one hardcoded
`TokenInfo` literal (both authorities revoked, top-5 32.1%, liquidity 8.4,
graduated, pool ok); a candidate influences its step only through its
mint (in particular its own `graduated` flag is ignored), the sizing
decision is always taken with `graduated = true`, and when the simulation
reports failure the step is always the `decision denied` skip — the
pre-graduation test-buy branch of `decide` is unreachable from the
orchestrator. -/
theorem C10_hardcoded_token_info :
    stub_token_info
      = { mint_revoked := true, freeze_revoked := true, top5_pct := 321 / 10,
          liquidity_sol := 42 / 5, graduated := true, pool_ok := true }
      -- top5_pct = 32.1 and liquidity_sol = 8.4 as exact rationals
  ∧ (∀ (env : ExecEnv) (cfg : Settings) (rc_bulk : List (String × RCDict))
       (paper : Bool) (c c' : Candidate), c.mint = c'.mint →
       candidate_step env cfg rc_bulk paper c
         = candidate_step env cfg rc_bulk paper c')
  ∧ (∀ (t m : ℚ) (sim : Bool),
       Strategy.decide t m stub_token_info.graduated sim
         = if sim then { should_test_buy := true, target_usd := m }
           else { should_test_buy := false, target_usd := 0 })
  ∧ (∀ (env : ExecEnv) (cfg : Settings) (rc_bulk : List (String × RCDict))
       (paper : Bool) (c : Candidate),
       hard_filters_pass stub_token_info (rcGet rc_bulk c.mint)
         cfg.MAX_TOP5_PCT cfg.MIN_LIQ_SOL = true →
       simulate_buy_sell_usd env.jup cfg c.mint cfg.TEST_BUY_USD = .ok false →
       candidate_step env cfg rc_bulk paper c = .ok (.skipDecision c.mint)) := by
  refine ⟨?_, ?_, ?_, ?_⟩
  · simp [stub_token_info, TokenInfo.mk.injEq, Rat.mkRat_eq_div]
  · intro env cfg rc_bulk paper c c' h
    simp only [candidate_step, h]
  · intro t m sim
    cases sim <;> rfl
  · intro env cfg rc_bulk paper c hfilters hsim
    have hg : stub_token_info.graduated = true := rfl
    simp [candidate_step, hfilters, hsim, hg, Strategy.decide]

/-- Witness for C10: two candidates sharing a mint but disagreeing on
every optional attribute (including `graduated`) take the same step. -/
theorem C10_hardcoded_token_info_witness :
    candidate_step envDown cfgNoKeys [] true
      { mint := "A", symbol := some "AAA", graduated := false }
      = candidate_step envDown cfgNoKeys [] true
          { mint := "A", graduated := true } :=
  C10_hardcoded_token_info.2.1 envDown cfgNoKeys [] true
    { mint := "A", symbol := some "AAA", graduated := false }
    { mint := "A", graduated := true } rfl

end Odysseus
